import Mathlib

/-!
Shallow embedding of `src/StellarGraph/stellar_graph.py`.

Numbers that the Python program holds in IEEE double precision are
modelled as real numbers; the quantities evaluated below are far from
any rounding boundary, so the real-valued model and the float program
agree on every digit the claims mention.
-/

namespace StellarGraph

/-- Line 14: `T_min = 3000`. -/
def T_min : ℤ := 3000

/-- Line 15: `T_max = 12000`. -/
def T_max : ℤ := 12000

/-- Line 16: `T_init = 5778`. -/
def T_init : ℤ := 5778

/-- Line 23: `sigma = 5.67e-8`, the Stefan–Boltzmann constant. -/
noncomputable def sigma : ℝ := 5.67e-8

/-- Line 24: `R = 6.96e8`, the solar radius in meters. -/
noncomputable def R : ℝ := 6.96e8

/-- Lines 27-28: `def luminosity(T): return 4 * np.pi * R**2 * sigma * T**4`. -/
noncomputable def luminosity (T : ℝ) : ℝ := 4 * Real.pi * R ^ 2 * sigma * T ^ 4

/-- The colormap normalization `(T - T_min) / (T_max - T_min)` followed by a
lookup, abstract in the colormap table (matplotlib's `cm.RdYlBu` is an
external black box returning an RGBA quadruple). -/
noncomputable def color_for (cmap : ℝ → ℝ × ℝ × ℝ × ℝ) (T Tmin Tmax : ℝ) :
    ℝ × ℝ × ℝ × ℝ :=
  cmap ((T - Tmin) / (Tmax - Tmin))

/-- Line 36: `color_current = cm.RdYlBu((T - T_min) / (T_max - T_min))`. -/
noncomputable def color_current (cmap : ℝ → ℝ × ℝ × ℝ × ℝ) (T : ℝ) :
    ℝ × ℝ × ℝ × ℝ :=
  color_for cmap T (T_min : ℝ) (T_max : ℝ)

/-- The formula of the specification, written out with the spec's own
constants, for comparison with the source's `luminosity`. -/
noncomputable def luminosity_spec (T : ℝ) : ℝ :=
  4 * Real.pi * (6.96e8 : ℝ) ^ 2 * (5.67e-8 : ℝ) * T ^ 4

/-- Collecting the constant factor: `4 * π * R² * σ = π * 109865548800`
exactly (the rational factor is an integer). -/
lemma luminosity_eq_pi_mul (T : ℝ) :
    luminosity T = Real.pi * (109865548800 * T ^ 4) := by
  simp only [luminosity, R, sigma]
  norm_num
  ring

/-- C1: on the slider domain the source's `luminosity` is exactly the
spec's formula `4π R² σ T⁴` with `R = 6.96e8`, `σ = 5.67e-8`; in
particular it meets the stated relative tolerance of `1e-6`. -/
theorem C1_luminosity_matches_formula (T : ℝ)
    (h1 : 3000 ≤ T) (h2 : T ≤ 12000) :
    luminosity T = luminosity_spec T ∧
      |luminosity T - luminosity_spec T| ≤ 1e-6 * luminosity_spec T := by
  have heq : luminosity T = luminosity_spec T := by
    simp only [luminosity, luminosity_spec, R, sigma]
  refine ⟨heq, ?_⟩
  rw [heq, sub_self, abs_zero]
  have hT : (0 : ℝ) < T := lt_of_lt_of_le (by norm_num) h1
  have hpos : 0 < luminosity_spec T := by
    have := Real.pi_pos
    simp only [luminosity_spec]
    positivity
  positivity

/-- Witness for C1 at `T = 5000`. -/
theorem C1_witness :
    luminosity 5000 = luminosity_spec 5000 ∧
      |luminosity 5000 - luminosity_spec 5000| ≤ 1e-6 * luminosity_spec 5000 :=
  C1_luminosity_matches_formula 5000 (by norm_num) (by norm_num)

/-- C2: `luminosity` is strictly increasing on `[3000, 12000]`. -/
theorem C2_luminosity_strict_mono (T1 T2 : ℝ)
    (h1 : 3000 ≤ T1) (h12 : T1 < T2) (h2 : T2 ≤ 12000) :
    luminosity T1 < luminosity T2 := by
  rw [luminosity_eq_pi_mul, luminosity_eq_pi_mul]
  have hT1 : (0 : ℝ) ≤ T1 := le_trans (by norm_num) h1
  have hpow : T1 ^ 4 < T2 ^ 4 := by
    exact pow_lt_pow_left₀ h12 hT1 (by norm_num)
  have hpi : (0 : ℝ) < Real.pi := Real.pi_pos
  nlinarith [hpow, hpi]

/-- Witness for C2 at `T1 = 4000`, `T2 = 6000`. -/
theorem C2_witness : luminosity 4000 < luminosity 6000 :=
  C2_luminosity_strict_mono 4000 6000 (by norm_num) (by norm_num) (by norm_num)

/-- C8: the luminosity model is a total function, positive on every
positive input, also outside `[3000, 12000]`; its definition has no
error branch. -/
theorem C8_luminosity_total_positive (T : ℝ) (h : 0 < T) :
    0 < luminosity T := by
  rw [luminosity_eq_pi_mul]
  have hpi : (0 : ℝ) < Real.pi := Real.pi_pos
  positivity

/-- Witness for C8 at `T = 42` (outside the slider domain). -/
theorem C8_witness : 0 < luminosity 42 :=
  C8_luminosity_total_positive 42 (by norm_num)

/-- C6: the marker color is the colormap looked up at the linear
normalization `(T - T_min) / (T_max - T_min)`; at `T = 3000` this is the
colormap at position `0.0` and at `T = 12000` the colormap at `1.0`. -/
theorem C6_color_normalization (cmap : ℝ → ℝ × ℝ × ℝ × ℝ) (T : ℝ) :
    color_current cmap T = cmap ((T - 3000) / (12000 - 3000)) ∧
      color_for cmap 3000 3000 12000 = cmap 0 ∧
      color_for cmap 12000 3000 12000 = cmap 1 := by
  refine ⟨?_, ?_, ?_⟩
  · simp only [color_current, color_for, T_min, T_max]
    norm_num
  · simp only [color_for]
    norm_num
  · simp only [color_for]
    norm_num

/-- Witness for C6 with a concrete colormap at `T = 7500`. -/
theorem C6_witness :
    color_current (fun t => (t, 0, 0, 1)) 7500 =
        (fun t : ℝ => (t, 0, 0, 1)) ((7500 - 3000) / (12000 - 3000)) ∧
      color_for (fun t => (t, 0, 0, 1)) 3000 3000 12000 =
        (fun t : ℝ => (t, 0, 0, 1)) 0 ∧
      color_for (fun t => (t, 0, 0, 1)) 12000 3000 12000 =
        (fun t : ℝ => (t, 0, 0, 1)) 1 :=
  C6_color_normalization (fun t => (t, 0, 0, 1)) 7500

/-- The Streamlit session state relevant to this page: the single key
`'T_current'`. -/
structure Session where
  T_current : ℤ

/-- Lines 20-21: `if 'T_current' not in st.session_state:
st.session_state.T_current = T_init` — the state read at the start of a
run, given the state left by the previous run (`none` on the very first
run). -/
def initSession : Option Session → Session
  | none => ⟨T_init⟩
  | some s => s

/-- The values the slider of lines 85-92 can produce: `min_value = T_min`,
`step = 10`, so the k-th notch is `T_min + 10 * k` (the widget contract:
it only emits values on this grid, clamped to `max_value = T_max`). -/
def sliderVal (k : ℕ) : ℤ := T_min + 10 * k

/-- The session states reachable in a session: the first run initializes
the state to `T_init`; afterwards each slider interaction stores one of
the slider's grid values. -/
inductive Reachable : Session → Prop where
  | init : Reachable (initSession none)
  | slide (s : Session) (k : ℕ) (hk : sliderVal k ≤ T_max) :
      Reachable s → Reachable ⟨sliderVal k⟩

/-- C7: the stored temperature starts at `5778` (the value read with no
prior interaction) and stays within `[3000, 12000]` in every reachable
session state. -/
theorem C7_temperature_invariant :
    (initSession none).T_current = 5778 ∧
      ∀ s : Session, Reachable s →
        T_min ≤ s.T_current ∧ s.T_current ≤ T_max := by
  constructor
  · rfl
  · intro s hs
    induction hs with
    | init => simp [initSession, T_init, T_min, T_max]
    | slide s k hk _ _ =>
        refine ⟨?_, hk⟩
        simp only [sliderVal, T_min]
        omega

/-- Witness for C7 at the initial state. -/
theorem C7_witness :
    (initSession none).T_current = 5778 ∧
      T_min ≤ (initSession none).T_current ∧
        (initSession none).T_current ≤ T_max :=
  ⟨C7_temperature_invariant.1,
    C7_temperature_invariant.2 (initSession none) Reachable.init⟩

/-- C10: every slider notch is `3000 + 10·k`, and no such value equals the
default `5778`; consequently any state written by a slider interaction
differs from the initial value, so `5778` cannot be re-selected through
the widget. -/
theorem C10_default_not_on_grid :
    ∀ k : ℕ, sliderVal k = T_min + 10 * k ∧ sliderVal k ≠ T_init := by
  intro k
  refine ⟨rfl, ?_⟩
  simp only [sliderVal, T_min, T_init]
  omega

/-- Witness for C10 at the notch nearest the default, `k = 278`. -/
theorem C10_witness :
    sliderVal 278 = T_min + 10 * 278 ∧ sliderVal 278 ≠ T_init :=
  C10_default_not_on_grid 278

/-- The character for the decimal digit `n % 10`. -/
def digitCh (n : ℕ) : Char := Char.ofNat (48 + n % 10)

/-- Decimal digits of `n`, most significant first (fuel-based recursion on
the first argument; `natStr` supplies enough fuel). -/
def natStrL : ℕ → ℕ → List Char
  | 0, _ => []
  | fuel + 1, n => if n < 10 then [digitCh n] else natStrL fuel (n / 10) ++ [digitCh n]

/-- Decimal string of a natural number. -/
def natStr (n : ℕ) : String := ⟨natStrL (n + 1) n⟩

/-- Exactly two decimal digits of `n < 100` (with leading zero). -/
def twoDigits (n : ℕ) : List Char := [digitCh (n / 10), digitCh n]

/-- The mantissa field of `"{:.2e}"`: the mantissa scaled to hundredths
`m` is rendered `d.dd`. -/
def mantStr (m : ℤ) : String :=
  natStr (m.toNat / 100) ++ "." ++ String.mk (twoDigits (m.toNat % 100))

/-- Pad a digit list to the formatter's minimum exponent width of two. -/
def pad2 (l : List Char) : List Char := if l.length < 2 then '0' :: l else l

/-- The exponent field of `"{:.2e}"`: at least two decimal digits of the
exponent's absolute value. -/
def expStr (e : ℤ) : String := String.mk (pad2 (natStrL (e.natAbs + 1) e.natAbs))

/-- Decimal exponent of a positive real: the unique `e` with
`10^e ≤ x < 10^(e+1)`. -/
noncomputable def sciExp0 (x : ℝ) : ℤ := ⌊Real.logb 10 x⌋

/-- The mantissa of `x` scaled to hundredths and rounded, before the
carry adjustment. -/
noncomputable def sciMant0 (x : ℝ) : ℤ := round (x / (10 : ℝ) ^ sciExp0 x * 100)

/-- Exponent printed by `"{:.2e}"`: `sciExp0 x`, bumped when rounding
carries the mantissa to `10.00`. -/
noncomputable def sciExp (x : ℝ) : ℤ :=
  if sciMant0 x = 1000 then sciExp0 x + 1 else sciExp0 x

/-- Mantissa (in hundredths) printed by `"{:.2e}"`, after the carry
adjustment. -/
noncomputable def sciMant (x : ℝ) : ℤ :=
  if sciMant0 x = 1000 then 100 else sciMant0 x

/-- Line 100: `formatted_L = "{:.2e}".format(L_current)`, modelled for
positive finite arguments: two-decimal mantissa, `e`, an explicit sign
and the at-least-two-digit exponent. Rounding ties (which the formatter
resolves to even) do not occur at any point evaluated below. -/
noncomputable def formatted_L (x : ℝ) : String :=
  mantStr (sciMant x) ++
    (if 0 ≤ sciExp x then "e+" ++ expStr (sciExp x)
     else "e-" ++ expStr (sciExp x))

/-- Python's substring test `pat in s` (lines 103 and 105). -/
def strContains (s pat : String) : Bool := decide (pat.data <:+: s.data)

/-- Split a character list at the first occurrence of `pat`, dropping
that occurrence. -/
def splitFirstL (pat : List Char) : List Char → List Char × List Char
  | [] => ([], [])
  | c :: cs =>
    if pat <+: c :: cs then ([], (c :: cs).drop pat.length)
    else
      let p := splitFirstL pat cs
      (c :: p.1, p.2)

/-- Python's `s.split(pat)` unpacked into two parts: on the strings at
hand `pat` occurs exactly once, so splitting at the first occurrence
agrees with the source's two-element unpacking. -/
def splitFirst (s pat : String) : String × String :=
  let p := splitFirstL pat.data s.data
  (String.mk p.1, String.mk p.2)

/-- Lines 102-111: the `base`/`exponent` extraction, including the
negative-sign re-prefixing and the `'0'` fallback branch. -/
def splitSci (s : String) : String × String :=
  if strContains s "e+" then splitFirst s "e+"
  else if strContains s "e-" then
    let p := splitFirst s "e-"
    (p.1, "-" ++ p.2)
  else (s, "0")

/-- Line 121: the ratio display `f"{x:1.1f}"`, modelled for positive
arguments: one rounded decimal digit. -/
noncomputable def fmt1f (x : ℝ) : String :=
  natStr ((round (x * 10)).toNat / 10) ++ "." ++
    String.mk [digitCh ((round (x * 10)).toNat % 10)]

/-- `round` from two-sided bounds of width one. -/
lemma round_eq_of_bounds {x : ℝ} {m : ℤ}
    (hlo : (m : ℝ) - 1 / 2 ≤ x) (hhi : x < (m : ℝ) + 1 / 2) :
    round x = m := by
  rw [round_eq, Int.floor_eq_iff]
  constructor <;> linarith

/-- `sciExp0` from two-sided power-of-ten bounds. -/
lemma sciExp0_unique {x : ℝ} {e : ℤ}
    (h1 : (10 : ℝ) ^ e ≤ x) (h2 : x < (10 : ℝ) ^ (e + 1)) :
    sciExp0 x = e := by
  have hx : 0 < x := lt_of_lt_of_le (zpow_pos (by norm_num) e) h1
  have hb : (1 : ℝ) < 10 := by norm_num
  rw [sciExp0, Int.floor_eq_iff]
  constructor
  · rw [Real.le_logb_iff_rpow_le hb hx, Real.rpow_intCast]
    exact h1
  · have : ((e : ℝ) + 1) = ((e + 1 : ℤ) : ℝ) := by push_cast; ring
    rw [this, Real.logb_lt_iff_lt_rpow hb hx, Real.rpow_intCast]
    exact h2

/-- `sciMant0` from an exponent value and mantissa bounds. -/
lemma sciMant0_unique {x : ℝ} {e m : ℤ} (he : sciExp0 x = e)
    (hlo : (m : ℝ) - 1 / 2 ≤ x / (10 : ℝ) ^ e * 100)
    (hhi : x / (10 : ℝ) ^ e * 100 < (m : ℝ) + 1 / 2) :
    sciMant0 x = m := by
  rw [sciMant0, he]
  exact round_eq_of_bounds hlo hhi

/-- Interval bounds for `luminosity 5778` from the π bounds. -/
lemma lum5778_bounds :
    3.8469e26 < luminosity 5778 ∧ luminosity 5778 < 3.8470e26 := by
  rw [luminosity_eq_pi_mul]
  have hc : (109865548800 : ℝ) * 5778 ^ 4 = 122453634413285114488012800 := by
    norm_num
  rw [hc]
  constructor
  · calc (3.8469e26 : ℝ)
        < 3.141592 * 122453634413285114488012800 := by norm_num
      _ < Real.pi * 122453634413285114488012800 := by
          have := Real.pi_gt_d6
          nlinarith
  · calc Real.pi * (122453634413285114488012800 : ℝ)
        < 3.141593 * 122453634413285114488012800 := by
          have := Real.pi_lt_d6
          nlinarith
      _ < 3.8470e26 := by norm_num

lemma sciExp0_lum5778 : sciExp0 (luminosity 5778) = 26 := by
  apply sciExp0_unique
  · rw [show ((10 : ℝ) ^ (26 : ℤ)) = 1e26 by norm_num]
    have h := lum5778_bounds.1
    linarith
  · rw [show ((10 : ℝ) ^ ((26 : ℤ) + 1)) = 1e27 by norm_num]
    have h := lum5778_bounds.2
    linarith

lemma sciMant0_lum5778 : sciMant0 (luminosity 5778) = 385 := by
  refine sciMant0_unique sciExp0_lum5778 ?_ ?_
  · rw [show ((10 : ℝ) ^ (26 : ℤ)) = 1e26 by norm_num,
      div_mul_eq_mul_div, le_div_iff₀ (by norm_num : (0:ℝ) < 1e26)]
    have h := lum5778_bounds.1
    push_cast
    nlinarith
  · rw [show ((10 : ℝ) ^ (26 : ℤ)) = 1e26 by norm_num,
      div_mul_eq_mul_div, div_lt_iff₀ (by norm_num : (0:ℝ) < 1e26)]
    have h := lum5778_bounds.2
    push_cast
    nlinarith

lemma sciExp_lum5778 : sciExp (luminosity 5778) = 26 := by
  rw [sciExp, sciMant0_lum5778, if_neg (by norm_num)]
  exact sciExp0_lum5778

lemma sciMant_lum5778 : sciMant (luminosity 5778) = 385 := by
  rw [sciMant, sciMant0_lum5778]
  norm_num

/-- The text the program formats for the default temperature. -/
lemma formatted_lum5778 : formatted_L (luminosity 5778) = "3.85e+26" := by
  rw [formatted_L, sciMant_lum5778, sciExp_lum5778,
    if_pos (by norm_num : (0 : ℤ) ≤ 26)]
  decide

/-- The Sun-ratio digit for the default temperature: the displayed
multiple is `1.0`. -/
lemma fmt1f_ratio_5778 : fmt1f (luminosity 5778 / 3.83e26) = "1.0" := by
  have hr : round (luminosity 5778 / 3.83e26 * 10) = 10 := by
    apply round_eq_of_bounds
    · rw [div_mul_eq_mul_div, le_div_iff₀ (by norm_num : (0:ℝ) < 3.83e26)]
      have h := lum5778_bounds.1
      push_cast
      nlinarith
    · rw [div_mul_eq_mul_div, div_lt_iff₀ (by norm_num : (0:ℝ) < 3.83e26)]
      have h := lum5778_bounds.2
      push_cast
      nlinarith
  rw [fmt1f, hr]
  decide

/-- Interval bounds for `luminosity 3000` from the π bounds. -/
lemma lum3000_bounds :
    2.7957e25 < luminosity 3000 ∧ luminosity 3000 < 2.7958e25 := by
  rw [luminosity_eq_pi_mul]
  have hc : (109865548800 : ℝ) * 3000 ^ 4 = 8899109452800000000000000 := by
    norm_num
  rw [hc]
  constructor
  · calc (2.7957e25 : ℝ)
        < 3.141592 * 8899109452800000000000000 := by norm_num
      _ < Real.pi * 8899109452800000000000000 := by
          have := Real.pi_gt_d6
          nlinarith
  · calc Real.pi * (8899109452800000000000000 : ℝ)
        < 3.141593 * 8899109452800000000000000 := by
          have := Real.pi_lt_d6
          nlinarith
      _ < 2.7958e25 := by norm_num

/-- Interval bounds for `luminosity 12000` from the π bounds. -/
lemma lum12000_bounds :
    7.1570e27 < luminosity 12000 ∧ luminosity 12000 < 7.1571e27 := by
  rw [luminosity_eq_pi_mul]
  have hc : (109865548800 : ℝ) * 12000 ^ 4 = 2278172019916800000000000000 := by
    norm_num
  rw [hc]
  constructor
  · calc (7.1570e27 : ℝ)
        < 3.141592 * 2278172019916800000000000000 := by norm_num
      _ < Real.pi * 2278172019916800000000000000 := by
          have := Real.pi_gt_d6
          nlinarith
  · calc Real.pi * (2278172019916800000000000000 : ℝ)
        < 3.141593 * 2278172019916800000000000000 := by
          have := Real.pi_lt_d6
          nlinarith
      _ < 7.1571e27 := by norm_num

/-- C3 counterexample: `luminosity 3000` is not within 0.1% of the
claimed `1.497e24` — it exceeds `2.7957e25`. -/
theorem C3_counterexample :
    ¬ |luminosity 3000 - 1.497e24| ≤ 1e-3 * 1.497e24 := by
  push_neg
  have h := lum3000_bounds.1
  calc (1e-3 : ℝ) * 1.497e24 < luminosity 3000 - 1.497e24 := by linarith
    _ ≤ |luminosity 3000 - 1.497e24| := le_abs_self _

/-- C3 amended: the boundary luminosities are `≈ 2.796e25` W at 3000 K
and `≈ 7.157e27` W at 12000 K, each within 0.1%. -/
theorem C3_boundary_values :
    |luminosity 3000 - 2.796e25| ≤ 1e-3 * 2.796e25 ∧
      |luminosity 12000 - 7.157e27| ≤ 1e-3 * 7.157e27 := by
  have h3 := lum3000_bounds
  have h12 := lum12000_bounds
  constructor
  · rw [abs_le]
    constructor <;> linarith [h3.1, h3.2]
  · rw [abs_le]
    constructor <;> linarith [h12.1, h12.2]

/-- C4 counterexample: at `T = 5778` the displayed mantissa is not
`"3.83"` (it is `"3.85"`). -/
theorem C4_counterexample :
    (splitSci (formatted_L (luminosity 5778))).1 ≠ "3.83" := by
  rw [formatted_lum5778]
  decide

/-- C4 amended: at `T = 5778` the text block has mantissa `"3.85"`,
exponent `"26"`, and the ratio-to-Sun sentence displays `"1.0"`. -/
theorem C4_formatting_5778 :
    splitSci (formatted_L (luminosity 5778)) = ("3.85", "26") ∧
      fmt1f (luminosity 5778 / 3.83e26) = "1.0" := by
  refine ⟨?_, fmt1f_ratio_5778⟩
  rw [formatted_lum5778]
  decide

lemma sciExp0_small : sciExp0 ((1 : ℝ) / 20) = -2 := by
  apply sciExp0_unique
  · rw [show ((10 : ℝ) ^ (-2 : ℤ)) = 1 / 100 by norm_num]
    norm_num
  · rw [show ((10 : ℝ) ^ ((-2 : ℤ) + 1)) = 1 / 10 by norm_num]
    norm_num

lemma sciMant0_small : sciMant0 ((1 : ℝ) / 20) = 500 := by
  refine sciMant0_unique sciExp0_small ?_ ?_ <;>
    rw [show ((10 : ℝ) ^ (-2 : ℤ)) = 1 / 100 by norm_num] <;> norm_num

lemma sciExp_small : sciExp ((1 : ℝ) / 20) = -2 := by
  rw [sciExp, sciMant0_small, if_neg (by norm_num)]
  exact sciExp0_small

lemma sciMant_small : sciMant ((1 : ℝ) / 20) = 500 := by
  rw [sciMant, sciMant0_small, if_neg (by norm_num)]

/-- The formatter output for the hypothetical value `L = 0.05`. -/
lemma formatted_small : formatted_L ((1 : ℝ) / 20) = "5.00e-02" := by
  rw [formatted_L, sciMant_small, sciExp_small,
    if_neg (by norm_num : ¬ (0 : ℤ) ≤ -2)]
  decide

/-- C5 counterexample: at `L = 0.05` the displayed exponent string is
not `"-2"` (it is `"-02"`). -/
theorem C5_counterexample :
    (splitSci (formatted_L ((1 : ℝ) / 20))).2 ≠ "-2" := by
  rw [formatted_small]
  decide

/-- C5 amended: for `0 < L < 1` the decimal exponent is negative, and
the split preserves the formatter's sign while keeping its two-digit
exponent field: `L = 0.05` yields mantissa `"5.00"` and exponent
`"-02"`. -/
theorem C5_negative_exponent :
    splitSci (formatted_L ((1 : ℝ) / 20)) = ("5.00", "-02") ∧
      ∀ x : ℝ, 0 < x → x < 1 → sciExp0 x < 0 := by
  constructor
  · rw [formatted_small]
    decide
  · intro x h0 h1
    rw [sciExp0, Int.floor_lt]
    push_cast
    exact Real.logb_neg (by norm_num) h0 h1

/-- Witness for C5 at `x = 1/2`. -/
theorem C5_witness :
    splitSci (formatted_L ((1 : ℝ) / 20)) = ("5.00", "-02") ∧
      sciExp0 ((1 : ℝ) / 2) < 0 :=
  ⟨C5_negative_exponent.1,
    C5_negative_exponent.2 ((1 : ℝ) / 2) (by norm_num) (by norm_num)⟩

/-- C9: on the slider domain the formatted luminosity always contains
`"e+"` or `"e-"` (in fact `"e+"`), so the `exponent = '0'` fallback of
lines 108-111 is unreachable. -/
theorem C9_fallback_unreachable (T : ℝ) (h1 : 3000 ≤ T) (h2 : T ≤ 12000) :
    strContains (formatted_L (luminosity T)) "e+" = true ∨
      strContains (formatted_L (luminosity T)) "e-" = true := by
  left
  have hT4 : (3000 : ℝ) ^ 4 ≤ T ^ 4 :=
    pow_le_pow_left₀ (by norm_num) h1 4
  have hL1 : (1 : ℝ) ≤ luminosity T := by
    rw [luminosity_eq_pi_mul]
    nlinarith [Real.pi_gt_three]
  have hexp0 : 0 ≤ sciExp0 (luminosity T) := by
    rw [sciExp0]
    exact Int.floor_nonneg.mpr (Real.logb_nonneg (by norm_num) hL1)
  have hexp : 0 ≤ sciExp (luminosity T) := by
    rw [sciExp]
    split
    · omega
    · exact hexp0
  rw [formatted_L, if_pos hexp]
  simp only [strContains, decide_eq_true_eq]
  rw [String.data_append, String.data_append]
  exact ⟨(mantStr (sciMant (luminosity T))).data,
    (expStr (sciExp (luminosity T))).data, by rw [List.append_assoc]⟩

/-- Witness for C9 at `T = 5000`. -/
theorem C9_witness :
    strContains (formatted_L (luminosity 5000)) "e+" = true ∨
      strContains (formatted_L (luminosity 5000)) "e-" = true :=
  C9_fallback_unreachable 5000 (by norm_num) (by norm_num)

end StellarGraph
